import Mathlib

/-!
Verification of the GeoGuide AI client against its specification.

The development shallowly embeds the TypeScript source:

* `src/types.ts` — the shared data model (`ChatMode`, `Location`,
  `MapMarker`, `Message`, `GeminiResponse`).
* `src/services/gemini.ts` — the AI Service Gateway
  (`sendMessageToGemini`): per-mode request configuration, grounding-source
  extraction, fenced-JSON marker parsing, display-text cleaning, and the
  top-level error fallback.
* The Application Shell (`handleSendMessage` and session state) from the
  richer `App` snapshot bundled with the service file.
* `src/components/MapComponent.tsx` (richer snapshot) — the map render:
  route polyline (`routePositions`), the current-location glyph, and
  per-marker icons.

Modelling conventions: JavaScript strings are Lean `String`s (character
lists where convenient); `Date.now()` is an explicit `Nat` parameter;
numbers appearing in data (coordinates, opacity) are `Rat`; a TypeScript
optional field is an `Option`; the remote provider call and the platform
`JSON.parse` are environment inputs, passed as an explicit outcome value
and an explicit parse-oracle function respectively.  The JavaScript regex
`/三backtick json\n([\s\S]*?)\n三backtick/` (leftmost match, lazy body) is
embedded as `matchJsonBlock`, whose soundness, completeness and
leftmost-ness are proved below.  JavaScript `String.prototype.trim` is
embedded as `jsTrim` (dropping ASCII whitespace on both ends); JavaScript
truthiness of strings (`undefined` and `""` are falsy) is embedded as
`jsStringOr`.
-/

namespace GeoGuide

/-- ChatMode from `src/types.ts`: the three conversational modes. -/
inductive ChatMode where
  | MAPS
  | SEARCH
  | CHAT
deriving DecidableEq

/-- Location from `src/types.ts`: a latitude/longitude pair. -/
structure Location where
  lat : Rat
  lng : Rat
deriving DecidableEq

/-- RouteInfo held by a MapMarker, from `src/types.ts`. -/
structure RouteInfo where
  duration : String
  distance : String
deriving DecidableEq

/-- MapMarker from `src/types.ts`.  The `type` field is a TypeScript union
of string literals, at runtime an ordinary optional string. -/
structure MapMarker where
  id : String
  name : String
  lat : Rat
  lng : Rat
  description : String
  type : Option String
  distance : Option String
  rating : Option String
  routeInfo : Option RouteInfo
deriving DecidableEq

/-- Role of a Message, from `src/types.ts`. -/
inductive MessageRole where
  | user
  | model
deriving DecidableEq

/-- Citation source entry `\x7btitle, uri\x7d` used in `Message.sources`
and `GeminiResponse.sources` in `src/types.ts`. -/
structure SourceRef where
  title : String
  uri : String
deriving DecidableEq

/-- Message from `src/types.ts`; the `Date` timestamp is modelled as the
`Nat` value of the millisecond clock. -/
structure Message where
  id : String
  role : MessageRole
  text : String
  timestamp : Nat
  markers : Option (List MapMarker)
  sources : Option (List SourceRef)
deriving DecidableEq

/-- GeminiResponse from `src/types.ts`: the Gateway result shape.  Both
`markers` and `sources` are optional fields there, so an `Option` here:
`none` models an absent (undefined) field, `some []` a present empty
array. -/
structure GeminiResponse where
  text : String
  markers : Option (List MapMarker)
  sources : Option (List SourceRef)
deriving DecidableEq

/-! ## Gateway request configuration (src/services/gemini.ts lines 42-81) -/

/-- Tool entries the Gateway can attach: `\x7bgoogleMaps: \x7b\x7d\x7d` or
`\x7bgoogleSearch: \x7b\x7d\x7d`. -/
inductive ToolKind where
  | googleMaps
  | googleSearch
deriving DecidableEq

/-- The `toolConfig.retrievalConfig.latLng` payload attached in MAPS mode
when a user location is available. -/
structure RetrievalLatLng where
  latitude : Rat
  longitude : Rat
deriving DecidableEq

/-- The request handed to `ai.models.generateContent`: model name, prompt
contents, and the config object (system instruction, optional tools list —
the source passes `undefined` when the tools array is empty — and optional
tool config). -/
structure GenerateRequest where
  model : String
  contents : String
  systemInstruction : String
  tools : Option (List ToolKind)
  toolConfig : Option RetrievalLatLng
deriving DecidableEq

/-- SYSTEM_INSTRUCTION_MAPS from `src/services/gemini.ts` (template
literal, braces and apostrophes written as character escapes). -/
def SYSTEM_INSTRUCTION_MAPS : String :=
  "\nYou are a helpful location assistant. You have access to real-time Google Maps data. \nWhen the user asks about places, locations, or geography, use the \x27googleMaps\x27 tool to find accurate information.\nCrucially, after your natural language answer, if you have identified specific physical locations that can be plotted on a map, you MUST provide a JSON block at the very end of your response.\nThe JSON block should strictly follow this schema:\n```json\n[\n  \x7b\n    \"name\": \"Name of the place\",\n    \"lat\": 12.3456,\n    \"lng\": -98.7654,\n    \"description\": \"Short snippet about this place\"\n  \x7d\n]\n```\nIf you cannot find specific coordinates, do not invent them. Only output the JSON if you have high confidence in the location data or can infer it reliably from the tool output.\n"

/-- SYSTEM_INSTRUCTION_SEARCH from `src/services/gemini.ts`. -/
def SYSTEM_INSTRUCTION_SEARCH : String :=
  "\nYou are a knowledgeable research assistant. You have access to Google Search.\nUse the \x27googleSearch\x27 tool to find the most up-to-date information, news, and facts.\nAlways cite your sources implicitly by using the tool, and the system will handle displaying the links.\n"

/-- SYSTEM_INSTRUCTION_CHAT from `src/services/gemini.ts`. -/
def SYSTEM_INSTRUCTION_CHAT : String :=
  "\nYou are a highly intelligent and capable AI assistant. \nYou can help with complex reasoning, coding, creative writing, and general questions.\n"

/-- Request construction of `sendMessageToGemini` (lines 42-81): the
mutable `modelName`/`tools`/`systemInstruction`/`toolConfig` locals start
at the CHAT defaults and are overwritten per mode; the final call passes
`tools` only when the array is non-empty. -/
def buildRequest (prompt : String) (mode : ChatMode) (userLocation : Option Location) :
    GenerateRequest :=
  match mode with
  | ChatMode.MAPS =>
    { model := "gemini-2.5-flash"
      contents := prompt
      systemInstruction := SYSTEM_INSTRUCTION_MAPS
      tools := some [ToolKind.googleMaps]
      toolConfig := userLocation.map (fun loc => ⟨loc.lat, loc.lng⟩) }
  | ChatMode.SEARCH =>
    { model := "gemini-2.5-flash"
      contents := prompt
      systemInstruction := SYSTEM_INSTRUCTION_SEARCH
      tools := some [ToolKind.googleSearch]
      toolConfig := none }
  | ChatMode.CHAT =>
    { model := "gemini-3-pro-preview"
      contents := prompt
      systemInstruction := SYSTEM_INSTRUCTION_CHAT
      tools := none
      toolConfig := none }

/-! ## Provider response shape and grounding sources (lines 83-97) -/

/-- One side of a grounding chunk: `chunk.web` or `chunk.maps`, each with
a possibly-absent title and a uri. -/
structure ChunkInfo where
  title : Option String
  uri : String
deriving DecidableEq

/-- A grounding chunk from `response.candidates[0].groundingMetadata
.groundingChunks`: the code probes the `web` field, then the `maps`
field. -/
structure GroundingChunk where
  web : Option ChunkInfo
  maps : Option ChunkInfo
deriving DecidableEq

/-- The provider response fields that `sendMessageToGemini` reads:
`response.text` (possibly absent) and the optional-chained grounding
chunk list (the whole `candidates?.[0]?.groundingMetadata?
.groundingChunks` chain collapses to one `Option`). -/
structure ProviderResponse where
  text : Option String
  groundingChunks : Option (List GroundingChunk)
deriving DecidableEq

/-- JavaScript string truthiness applied by `a || b`: an absent value and
the empty string both fall through to the fallback. -/
def jsStringOr (o : Option String) (fallback : String) : String :=
  match o with
  | none => fallback
  | some s => if s = "" then fallback else s

/-- Sources contributed by one grounding chunk (lines 90-96): a web chunk
yields a source titled `chunk.web.title || "Web Source"`; otherwise a maps
chunk yields `chunk.maps.title || "Map Location"`; otherwise nothing. -/
def chunkSources (ch : GroundingChunk) : List SourceRef :=
  match ch.web with
  | some w => [⟨jsStringOr w.title "Web Source", w.uri⟩]
  | none =>
    match ch.maps with
    | some m => [⟨jsStringOr m.title "Map Location", m.uri⟩]
    | none => []

/-- The `groundingChunks.forEach` push loop (lines 88-97): absent metadata
leaves `sources` empty, otherwise chunks contribute in order. -/
def sourcesOfChunks : List GroundingChunk → List SourceRef
  | [] => []
  | ch :: rest => chunkSources ch ++ sourcesOfChunks rest

/-- Source extraction over the optional chunk list. -/
def parseSources : Option (List GroundingChunk) → List SourceRef
  | none => []
  | some chunks => sourcesOfChunks chunks

/-! ## The fenced-JSON matcher (lines 101 and 121)

The source applies the regex `three-backtick json newline, lazy body,
newline three-backtick` twice to the same text: once (line 101) to capture
the body for `JSON.parse`, once (line 121) to delete the matched block.
JavaScript regex semantics give the leftmost-starting match, and at that
start the lazy body takes the earliest possible closing fence.
`splitFirst pat s` returns the text before and after the first occurrence
of `pat` in `s`; `matchJsonBlock` composes two such splits, which is
exactly the leftmost-lazy match (proved sound, complete and leftmost
below). -/

/-- List-level check that `p` is an initial segment of `s`. -/
def startsWithSeq : List Char → List Char → Bool
  | [], _ => true
  | _ :: _, [] => false
  | p :: ps, c :: cs => p = c && startsWithSeq ps cs

/-- Split `s` at the first occurrence of `pat`, returning the text before
the occurrence and the text after it. -/
def splitFirst (pat : List Char) : List Char → Option (List Char × List Char)
  | [] => if startsWithSeq pat [] then some ([], []) else none
  | c :: rest =>
    if startsWithSeq pat (c :: rest) then some ([], (c :: rest).drop pat.length)
    else (splitFirst pat rest).map (fun p => (c :: p.1, p.2))

/-- Opening fence of the JSON block regex. -/
def openFence : List Char := "```json\n".toList

/-- Closing fence of the JSON block regex. -/
def closeFence : List Char := "\n```".toList

/-- The leftmost-lazy match of the fenced JSON block regex: before-part,
captured body, after-part. -/
def matchJsonBlock (text : List Char) : Option (List Char × List Char × List Char) :=
  match splitFirst openFence text with
  | none => none
  | some (before, rest) =>
    match splitFirst closeFence rest with
    | none => none
    | some (body, after) => some (before, body, after)

/-- JavaScript `String.prototype.trim` on the character list: ASCII
whitespace dropped from both ends (the JavaScript version also strips
rarer Unicode space characters, which never occur in this program's
data). -/
def jsTrim (s : List Char) : List Char :=
  ((s.dropWhile Char.isWhitespace).reverse.dropWhile Char.isWhitespace).reverse

/-- Display-text cleaning (line 121): delete the first matched fenced
JSON block, if any, then trim — `text.replace(re, "").trim()`. -/
def cleanJson (text : String) : String :=
  match matchJsonBlock text.toList with
  | some (before, _, after) => String.mk (jsTrim (before ++ after))
  | none => String.mk (jsTrim text.toList)

/-! ## Marker parsing (lines 100-118) -/

/-- Shape of one element of the parsed JSON array, with the fields the
MAPS-mode wire contract defines: required name/lat/lng/description,
optional type and distance. -/
structure JsonElem where
  name : String
  lat : Rat
  lng : Rat
  description : String
  type : Option String
  distance : Option String
deriving DecidableEq

/-- Outcome of the platform `JSON.parse` on the captured block body:
a thrown syntax error, a non-array value, or an array of elements. -/
inductive JsonParseResult where
  | failure
  | nonArray
  | array (elems : List JsonElem)
deriving DecidableEq

/-- Marker identifier synthesis (line 107):
`marker-dollar\x7bDate.now()\x7d-dollar\x7bidx\x7d`. -/
def mkMarkerId (now idx : Nat) : String :=
  "marker-" ++ Nat.repr now ++ "-" ++ Nat.repr idx

/-- The `parsed.map((m, idx) => ...)` marker builder (lines 106-112): the
produced object literal carries only id, name, lat, lng and description,
so the remaining MapMarker fields are absent. -/
def buildMarkers (now : Nat) : Nat → List JsonElem → List MapMarker
  | _, [] => []
  | idx, m :: rest =>
    { id := mkMarkerId now idx
      name := m.name
      lat := m.lat
      lng := m.lng
      description := m.description
      type := none
      distance := none
      rating := none
      routeInfo := none } :: buildMarkers now (idx + 1) rest

/-- MAPS-mode marker extraction (lines 100-118): match the fenced block;
the guard `jsonMatch && jsonMatch[1]` also rejects an empty captured body
(falsy in JavaScript); parse the body; keep markers only when the parse
yields an array, recovering to the empty list on a parse failure. -/
def extractMarkers (jp : List Char → JsonParseResult) (now : Nat) (mode : ChatMode)
    (text : String) : List MapMarker :=
  if mode = ChatMode.MAPS then
    match matchJsonBlock text.toList with
    | some (_, body, _) =>
      if body = [] then []
      else
        match jp body with
        | JsonParseResult.array elems => buildMarkers now 0 elems
        | _ => []
    | none => []
  else []

/-! ## The Gateway operation (lines 36-135) -/

/-- Outcome of the awaited provider call: a response, or any thrown
failure (network error, tool configuration rejection, and so on) caught
by the top-level try/catch. -/
inductive CallOutcome where
  | success (resp : ProviderResponse)
  | failure
deriving DecidableEq

/-- Fallback text substituted when the provider returns no text
(line 83). -/
def noTextFallback : String := "I couldn\x27t generate a text response."

/-- Fixed apology returned by the catch block (line 132). -/
def apologyText : String :=
  "I encountered an error connecting to the service. Please check your connection and try again."

/-- The Gateway operation `sendMessageToGemini` (lines 36-135).  The
provider call is modelled by the `outcome` input; `jp` models the platform
`JSON.parse`; `now` models `Date.now()`.  On success the raw text — with
the no-text fallback substituted by `response.text || ...` when the text
is absent or empty, both falsy in JavaScript — is mined for sources and
markers and cleaned; on any failure the catch block returns the fixed
apology with the `markers` and `sources` fields left absent. -/
def sendMessageToGemini (jp : List Char → JsonParseResult) (now : Nat) (prompt : String)
    (mode : ChatMode) (userLocation : Option Location) (outcome : CallOutcome) :
    GeminiResponse :=
  match outcome with
  | CallOutcome.failure => { text := apologyText, markers := none, sources := none }
  | CallOutcome.success resp =>
    let text := jsStringOr resp.text noTextFallback
    let sources := parseSources resp.groundingChunks
    let markers := extractMarkers jp now mode text
    { text := cleanJson text, markers := some markers, sources := some sources }

/-! ## Application Shell (richer `App` snapshot bundled with the service
file): session state and the send-message operation -/

/-- Tile-layer choice owned by the Shell. -/
inductive MapLayer where
  | street
  | satellite
deriving DecidableEq

/-- Session state owned by the `App` component: conversation log, pending
input, in-flight flag, mode, geolocation, map view state, theme and
layer. -/
structure AppState where
  messages : List Message
  inputValue : String
  isLoading : Bool
  mode : ChatMode
  userLocation : Location
  mapCenter : Location
  mapZoom : Nat
  markers : List MapMarker
  isDarkMode : Bool
  mapLayer : MapLayer
deriving DecidableEq

/-- DEFAULT_LOCATION in the Shell: San Francisco. -/
def DEFAULT_LOCATION : Location := { lat := 37.7749, lng := -122.4194 }

/-- Welcome message text of the initial conversation log. -/
def welcomeText : String :=
  "Hello! I\x27m GeoGuide. I can help you find places, plan routes, or check the weather. Where would you like to start?"

/-- Initial Shell state: one synthetic welcome message from the model,
empty input, not loading, MAPS mode, default coordinates, zoom 13, no
markers, light street map.  `t0` models the `new Date()` taken when the
welcome message is created. -/
def initialState (t0 : Nat) : AppState :=
  { messages := [{ id := "welcome", role := MessageRole.model, text := welcomeText,
                   timestamp := t0, markers := none, sources := none }]
    inputValue := ""
    isLoading := false
    mode := ChatMode.MAPS
    userLocation := DEFAULT_LOCATION
    mapCenter := DEFAULT_LOCATION
    mapZoom := 13
    markers := []
    isDarkMode := false
    mapLayer := MapLayer.street }

/-- The user Message appended by `handleSendMessage` before the Gateway
round-trip: identifier `Date.now().toString()`, captured input text. -/
def userMessage (s : AppState) (tUser : Nat) : Message :=
  { id := Nat.repr tUser
    role := MessageRole.user
    text := s.inputValue
    timestamp := tUser
    markers := none
    sources := none }

/-- The model Message appended once the Gateway resolves: identifier
`(Date.now() + 1).toString()`, carrying the returned text, markers and
sources. -/
def botMessage (tBot : Nat) (resp : GeminiResponse) : Message :=
  { id := Nat.repr (tBot + 1)
    role := MessageRole.model
    text := resp.text
    timestamp := tBot
    markers := resp.markers
    sources := resp.sources }

/-- The send-message operation of the Shell, modelled as its complete
effect on session state.  Guard: return unchanged (no Gateway call) when
the trimmed input is empty or a send is in flight.  Otherwise: clear the
input, append the user message, await the Gateway (the response is the
`resp` input; the Boolean result records that the call was made), append
the model message, and when the returned marker list is non-empty replace
the marker set, recenter on the first marker and set zoom 14; the
in-flight flag is set for the duration and cleared in the `finally`, so
the completed operation leaves it as it started. -/
def handleSendMessage (s : AppState) (tUser tBot : Nat) (resp : GeminiResponse) :
    AppState × Bool :=
  if (jsTrim s.inputValue.toList = []) ∨ s.isLoading then (s, false)
  else
    let s1 : AppState :=
      { s with inputValue := ""
               messages := s.messages ++ [userMessage s tUser, botMessage tBot resp] }
    match resp.markers with
    | some (m :: rest) =>
      ({ s1 with markers := m :: rest
                 mapCenter := { lat := m.lat, lng := m.lng }
                 mapZoom := 14 }, true)
    | _ => (s1, true)

/-! ## Map View (richer `MapComponent` snapshot, src/components/
MapComponent.tsx lines 163-360) -/

/-- Icon descriptor produced by `createCustomIcon`: Tailwind colour
class, inner label markup, and glyph size. -/
structure MarkerIcon where
  colorClass : String
  iconHtml : String
  sizePx : Nat
deriving DecidableEq

/-- The `createCustomIcon` switch on the marker type string: origin is a
green A, destination a red B, poi a small purple dot, anything else a
blue dot; poi glyphs are 12px, the rest 24px. -/
def createCustomIcon (t : String) : MarkerIcon :=
  { colorClass :=
      if t = "origin" then "bg-green-600"
      else if t = "destination" then "bg-red-600"
      else if t = "poi" then "bg-purple-500"
      else "bg-blue-500"
    iconHtml :=
      if t = "origin" then "<span>A</span>"
      else if t = "destination" then "<span>B</span>"
      else ""
    sizePx := if t = "poi" then 12 else 24 }

/-- Route polyline endpoints (lines 249-259): present exactly when
`markers.find` locates both an origin-typed and a destination-typed
marker, connecting those two coordinates. -/
def routePositions (markers : List MapMarker) : Option (List (Rat × Rat)) :=
  match markers.find? (fun m => m.type = some "origin"),
        markers.find? (fun m => m.type = some "destination") with
  | some origin, some dest => some [(origin.lat, origin.lng), (dest.lat, dest.lng)]
  | _, _ => none

/-- Accent colour used by both the current-location glyph and the route
line: `#60a5fa` in dark mode off-satellite, else `#3b82f6`. -/
def accentColor (isDarkMode : Bool) (mapLayer : MapLayer) : String :=
  if isDarkMode ∧ mapLayer ≠ MapLayer.satellite then "#60a5fa" else "#3b82f6"

/-- The current-location marker (lines 294-305): positioned at the map
centre, a 16px filled circle in the accent colour, popup text
"You are here". -/
structure UserGlyph where
  position : Location
  colorHex : String
  sizePx : Nat
  popupText : String
deriving DecidableEq

/-- The rendered route polyline (lines 307-318): dashed, 4-weight, 0.8
opacity, accent colour. -/
structure RouteLine where
  positions : List (Rat × Rat)
  color : String
  dashArray : String
  weight : Nat
  opacity : Rat
deriving DecidableEq

/-- One rendered result marker from the `markers.map` loop (lines
320-355): keyed by id, positioned at the marker coordinate, icon from
`createCustomIcon(marker.type || "default")`. -/
structure RenderedMarker where
  key : String
  position : Location
  icon : MarkerIcon
deriving DecidableEq

/-- The claim-relevant render output of `MapComponent`: the single
current-location glyph, the optional route line, and the result marker
glyphs. -/
structure MapRender where
  userGlyph : UserGlyph
  routeLine : Option RouteLine
  resultMarkers : List RenderedMarker
deriving DecidableEq

/-- Render function of the richer `MapComponent` restricted to the
claim-relevant outputs.  The current-location glyph is drawn at
`[center.lat, center.lng]` — the centre prop, not a user-location prop
(the component receives none). -/
def renderMap (center : Location) (markers : List MapMarker)
    (isDarkMode : Bool) (mapLayer : MapLayer) : MapRender :=
  { userGlyph :=
      { position := center
        colorHex := accentColor isDarkMode mapLayer
        sizePx := 16
        popupText := "You are here" }
    routeLine := (routePositions markers).map
      (fun ps => { positions := ps
                   color := accentColor isDarkMode mapLayer
                   dashArray := "10, 10"
                   weight := 4
                   opacity := 0.8 })
    resultMarkers := markers.map
      (fun m => { key := m.id
                  position := { lat := m.lat, lng := m.lng }
                  icon := createCustomIcon (jsStringOr m.type "default") }) }

/-- Composition in the Shell (lines 277-284 of the richer `App`): the
`MapComponent` is rendered with `center=\x7bmapCenter\x7d` and the Shell's
markers, theme and layer. -/
def appRender (s : AppState) : MapRender :=
  renderMap s.mapCenter s.markers s.isDarkMode s.mapLayer

/-! ## Reference decimal rendering

Marker and message identifiers interpolate `Date.now()` and the array
index with JavaScript number-to-string conversion, embedded as
`Nat.repr`.  Identifier-uniqueness claims need `Nat.repr` to be
injective, which the library does not provide; the following reference
function and decoder supply a proof. -/

/-- Decimal digits of `n`, most significant first: the reference shape of
`Nat.toDigits 10 n`. -/
def tdRef (n : Nat) : List Char :=
  if n < 10 then [Nat.digitChar n]
  else tdRef (n / 10) ++ [Nat.digitChar (n % 10)]
decreasing_by exact Nat.div_lt_self (by omega) (by omega)

/-- Numeric value of a decimal digit character. -/
def dval (c : Char) : Nat := c.toNat - 48

/-- Decoder reading a most-significant-first decimal digit list back to a
number. -/
def unrepr (ds : List Char) : Nat :=
  ds.foldl (fun a c => 10 * a + dval c) 0

/-- Specification-side predicate for one grounding citation: the emitted
source carries the chunk's given title, with the fixed fallbacks
"Web Source" for a web chunk lacking a title and "Map Location" for a
maps chunk lacking one (a maps chunk is consulted only when the web field
is absent, mirroring the `else if`). -/
def chunkTitleOk (ch : GroundingChunk) (s : SourceRef) : Prop :=
  (∀ w : ChunkInfo, ch.web = some w →
    (w.title = none → s.title = "Web Source") ∧
    (∀ t : String, w.title = some t → t ≠ "" → s.title = t)) ∧
  (ch.web = none → ∀ m : ChunkInfo, ch.maps = some m →
    (m.title = none → s.title = "Map Location") ∧
    (∀ t : String, m.title = some t → t ≠ "" → s.title = t))

end GeoGuide

namespace GeoGuide

/-! # Infrastructure lemmas -/

theorem startsWithSeq_iff (p : List Char) : ∀ s : List Char,
    startsWithSeq p s = true ↔ ∃ t, s = p ++ t := by
  induction p with
  | nil => intro s; simp [startsWithSeq]
  | cons a ps ih =>
    intro s
    cases s with
    | nil =>
      simp only [startsWithSeq, List.cons_append]
      constructor
      · intro h; cases h
      · rintro ⟨t, h⟩; cases h
    | cons c cs =>
      simp only [startsWithSeq, Bool.and_eq_true, decide_eq_true_eq, ih, List.cons_append]
      constructor
      · rintro ⟨rfl, t, rfl⟩; exact ⟨t, rfl⟩
      · rintro ⟨t, h⟩
        injection h with h1 h2
        exact ⟨h1.symm, t, h2⟩

theorem splitFirst_pos (pat s : List Char) (h : startsWithSeq pat s = true) :
    splitFirst pat s = some ([], s.drop pat.length) := by
  cases s with
  | nil => simp [splitFirst, h]
  | cons c cs => simp [splitFirst, h]

theorem splitFirst_neg (pat : List Char) (c : Char) (cs : List Char)
    (hp : ¬ startsWithSeq pat (c :: cs) = true) :
    splitFirst pat (c :: cs) = (splitFirst pat cs).map (fun p => (c :: p.1, p.2)) := by
  simp [splitFirst, hp]

theorem splitFirst_sound (pat : List Char) : ∀ s b a : List Char,
    splitFirst pat s = some (b, a) → s = b ++ pat ++ a := by
  intro s
  induction s with
  | nil =>
    intro b a h
    by_cases hp : startsWithSeq pat [] = true
    · obtain ⟨t, ht⟩ := (startsWithSeq_iff pat []).mp hp
      have hpat : pat = [] := by
        cases pat with
        | nil => rfl
        | cons x xs => cases ht
      rw [splitFirst_pos pat [] hp] at h
      injection h with h
      injection h with h1 h2
      subst h1; subst h2; simp [hpat]
    · simp [splitFirst, hp] at h
  | cons c cs ih =>
    intro b a h
    by_cases hp : startsWithSeq pat (c :: cs) = true
    · obtain ⟨t, ht⟩ := (startsWithSeq_iff pat (c :: cs)).mp hp
      rw [splitFirst_pos pat _ hp] at h
      injection h with h
      injection h with h1 h2
      subst h1
      rw [ht] at h2 ⊢
      rw [List.drop_left] at h2
      subst h2; simp
    · rw [splitFirst_neg pat c cs hp, Option.map_eq_some'] at h
      obtain ⟨⟨b0, a0⟩, hsp, hba⟩ := h
      injection hba with h1 h2
      subst h1; subst h2
      have := ih b0 a0 hsp
      simp [this]

theorem splitFirst_leftmost (pat : List Char) : ∀ s b a : List Char,
    splitFirst pat s = some (b, a) →
    ∀ b2 a2 : List Char, s = b2 ++ pat ++ a2 → b.length ≤ b2.length := by
  intro s
  induction s with
  | nil =>
    intro b a h b2 a2 _
    have hs := splitFirst_sound pat [] b a h
    have hb : b = [] := by
      cases b with
      | nil => rfl
      | cons x xs => simp at hs
    simp [hb]
  | cons c cs ih =>
    intro b a h b2 a2 hs
    by_cases hp : startsWithSeq pat (c :: cs) = true
    · rw [splitFirst_pos pat _ hp] at h
      injection h with h
      injection h with h1 _
      subst h1; simp
    · rw [splitFirst_neg pat c cs hp, Option.map_eq_some'] at h
      obtain ⟨⟨b0, a0⟩, hsp, hba⟩ := h
      injection hba with h1 h2
      subst h1; subst h2
      cases b2 with
      | nil =>
        exfalso
        apply hp
        exact (startsWithSeq_iff pat (c :: cs)).mpr ⟨a2, by simpa using hs⟩
      | cons c2 cs2 =>
        simp only [List.cons_append, List.length_cons] at hs ⊢
        injection hs with _ h2
        exact Nat.succ_le_succ (ih b0 a0 hsp cs2 a2 h2)

theorem splitFirst_isSome_of_append (pat : List Char) : ∀ b a : List Char,
    (splitFirst pat (b ++ pat ++ a)).isSome = true := by
  intro b
  induction b with
  | nil =>
    intro a
    have h : startsWithSeq pat (([] : List Char) ++ pat ++ a) = true :=
      (startsWithSeq_iff pat _).mpr ⟨a, by simp⟩
    rw [splitFirst_pos pat _ h]
    rfl
  | cons c cs ih =>
    intro a
    by_cases hp : startsWithSeq pat (c :: cs ++ pat ++ a) = true
    · rw [splitFirst_pos pat _ hp]
      rfl
    · have heq : c :: cs ++ pat ++ a = c :: (cs ++ pat ++ a) := by simp
      rw [heq, splitFirst_neg pat _ _ (by rw [← heq]; exact hp)]
      have := ih a
      cases hsp : splitFirst pat (cs ++ pat ++ a) with
      | none => rw [hsp] at this; cases this
      | some p => simp

theorem matchJsonBlock_sound (t b body a : List Char)
    (h : matchJsonBlock t = some (b, body, a)) :
    t = b ++ openFence ++ body ++ closeFence ++ a := by
  unfold matchJsonBlock at h
  cases h1 : splitFirst openFence t with
  | none => simp [h1] at h
  | some p1 =>
    obtain ⟨b1, rest⟩ := p1
    simp only [h1] at h
    cases h2 : splitFirst closeFence rest with
    | none => simp [h2] at h
    | some p2 =>
      obtain ⟨body1, a1⟩ := p2
      simp only [h2] at h
      have e1 := splitFirst_sound openFence t b1 rest h1
      have e2 := splitFirst_sound closeFence rest body1 a1 h2
      simp only [Option.some.injEq, Prod.mk.injEq] at h
      obtain ⟨rfl, rfl, rfl⟩ := h
      rw [e1, e2]
      simp [List.append_assoc]

theorem matchJsonBlock_leftmost (t b body a : List Char)
    (h : matchJsonBlock t = some (b, body, a)) :
    ∀ b2 r2 : List Char, t = b2 ++ openFence ++ r2 → b.length ≤ b2.length := by
  unfold matchJsonBlock at h
  cases h1 : splitFirst openFence t with
  | none => simp [h1] at h
  | some p1 =>
    obtain ⟨b1, rest⟩ := p1
    simp only [h1] at h
    cases h2 : splitFirst closeFence rest with
    | none => simp [h2] at h
    | some p2 =>
      obtain ⟨body1, a1⟩ := p2
      simp only [h2] at h
      have hl := splitFirst_leftmost openFence t b1 rest h1
      simp only [Option.some.injEq, Prod.mk.injEq] at h
      obtain ⟨rfl, rfl, rfl⟩ := h
      exact hl

theorem toDigitsCore_eq_tdRef : ∀ (f : Nat), ∀ (n : Nat) (ds : List Char), 0 < f →
    n < 10 ^ f → Nat.toDigitsCore 10 f n ds = tdRef n ++ ds := by
  intro f
  induction f with
  | zero => intro n ds h0 _; omega
  | succ f ih =>
    intro n ds _ hlt
    by_cases h : n < 10
    · have hdiv : n / 10 = 0 := (Nat.div_eq_zero_iff (by omega)).mpr h
      have hmod : n % 10 = n := Nat.mod_eq_of_lt h
      rw [tdRef]
      simp [Nat.toDigitsCore, hdiv, hmod, h]
    · have hdiv : ¬ n / 10 = 0 := by
        intro hc
        exact h ((Nat.div_eq_zero_iff (by omega)).mp hc)
      have hf : 0 < f := by
        by_contra hf0
        have : f = 0 := by omega
        subst this
        simp at hlt
        omega
      have hlt2 : n / 10 < 10 ^ f := by
        rw [Nat.div_lt_iff_lt_mul (by omega)]
        calc n < 10 ^ (f + 1) := hlt
        _ = 10 ^ f * 10 := by rw [pow_succ]
      have step : Nat.toDigitsCore 10 (f + 1) n ds =
          Nat.toDigitsCore 10 f (n / 10) (Nat.digitChar (n % 10) :: ds) := by
        simp [Nat.toDigitsCore, hdiv]
      rw [step, ih (n / 10) (Nat.digitChar (n % 10) :: ds) hf hlt2]
      conv_rhs => rw [tdRef]
      simp [h, List.append_assoc]

theorem toDigits_eq_tdRef (n : Nat) : Nat.toDigits 10 n = tdRef n := by
  have h1 : n < 10 ^ (n + 1) := by
    calc n < 10 ^ n := Nat.lt_pow_self (by omega) n
    _ ≤ 10 ^ (n + 1) := Nat.pow_le_pow_right (by omega) (by omega)
  have := toDigitsCore_eq_tdRef (n + 1) n [] (by omega) h1
  unfold Nat.toDigits
  rw [this]
  simp

theorem dval_digitChar (d : Nat) (h : d < 10) : dval (Nat.digitChar d) = d := by
  interval_cases d <;> rfl

theorem unrepr_append_digit (ds : List Char) (c : Char) :
    unrepr (ds ++ [c]) = 10 * unrepr ds + dval c := by
  unfold unrepr
  rw [List.foldl_append]
  rfl

theorem unrepr_tdRef (n : Nat) : unrepr (tdRef n) = n := by
  induction n using Nat.strong_induction_on with
  | _ n ih =>
    by_cases h : n < 10
    · rw [tdRef]
      simp only [h, if_true]
      unfold unrepr
      simp only [List.foldl_cons, List.foldl_nil]
      rw [dval_digitChar n h]
      omega
    · rw [tdRef]
      simp only [h, if_false]
      rw [unrepr_append_digit]
      rw [ih (n / 10) (Nat.div_lt_self (by omega) (by omega))]
      rw [dval_digitChar (n % 10) (Nat.mod_lt n (by omega))]
      omega

theorem repr_injective : Function.Injective Nat.repr := by
  intro m n h
  have h2 : (Nat.toDigits 10 m).asString = (Nat.toDigits 10 n).asString := h
  have h3 : Nat.toDigits 10 m = Nat.toDigits 10 n := congrArg String.data h2
  rw [toDigits_eq_tdRef, toDigits_eq_tdRef] at h3
  have h4 := congrArg unrepr h3
  rwa [unrepr_tdRef, unrepr_tdRef] at h4

theorem mkMarkerId_inj (now i j : Nat) (h : mkMarkerId now i = mkMarkerId now j) : i = j := by
  unfold mkMarkerId at h
  have hd := congrArg String.data h
  simp only [String.data_append, List.append_assoc] at hd
  have hds : (Nat.repr i).data = (Nat.repr j).data :=
    List.append_cancel_left (List.append_cancel_left (List.append_cancel_left hd))
  exact repr_injective (String.ext hds)

theorem buildMarkers_length (now : Nat) : ∀ (elems : List JsonElem) (k : Nat),
    (buildMarkers now k elems).length = elems.length := by
  intro elems
  induction elems with
  | nil => intro k; rfl
  | cons m rest ih => intro k; simp [buildMarkers, ih (k + 1)]

theorem buildMarkers_getElem? (now : Nat) : ∀ (elems : List JsonElem) (k i : Nat),
    (buildMarkers now k elems)[i]? = (elems[i]?).map
      (fun m => (⟨mkMarkerId now (k + i), m.name, m.lat, m.lng, m.description,
                  none, none, none, none⟩ : MapMarker)) := by
  intro elems
  induction elems with
  | nil => intro k i; simp [buildMarkers]
  | cons m rest ih =>
    intro k i
    cases i with
    | zero => simp [buildMarkers]
    | succ i =>
      have harith : k + (i + 1) = (k + 1) + i := by omega
      simp [buildMarkers, ih (k + 1) i, harith]

/-! # Claim theorems -/

/-- C3 (amended): for every input, a failure of the provider call or of
the response handling resolves — never throws — to the fixed apology
text, with the `markers` and `sources` fields left absent (undefined),
which every caller treats the same as empty. -/
theorem claim_C3 (jp : List Char → JsonParseResult) (now : Nat) (prompt : String)
    (mode : ChatMode) (userLocation : Option Location) :
    sendMessageToGemini jp now prompt mode userLocation CallOutcome.failure =
      { text := apologyText, markers := none, sources := none } := rfl

/-- C3 counterexample: the claim as stated asserts the fallback carries
empty marker and source sequences; at a concrete failing call the fields
are absent (`none`), not empty sequences (`some []`). -/
theorem claim_C3_counterexample :
    (sendMessageToGemini (fun _ => JsonParseResult.failure) 0 "hi" ChatMode.MAPS none
        CallOutcome.failure).text = apologyText ∧
    (sendMessageToGemini (fun _ => JsonParseResult.failure) 0 "hi" ChatMode.MAPS none
        CallOutcome.failure).markers ≠ some [] ∧
    (sendMessageToGemini (fun _ => JsonParseResult.failure) 0 "hi" ChatMode.MAPS none
        CallOutcome.failure).sources ≠ some [] ∧
    (sendMessageToGemini (fun _ => JsonParseResult.failure) 0 "hi" ChatMode.MAPS none
        CallOutcome.failure).markers = none := by
  refine ⟨rfl, ?_, ?_, rfl⟩ <;> intro h <;> cases h

/-- C4: the send operation selects exactly the per-mode configuration of
the table: MAPS uses the flash model, the map-assistant instruction and
the googleMaps tool, attaching a retrieval latitude/longitude exactly
when a user location is present; SEARCH uses the flash model, the
search-assistant instruction and the googleSearch tool; CHAT uses the pro
model, the general-assistant instruction and no tool. -/
theorem claim_C4 (prompt : String) (u : Option Location) :
    (buildRequest prompt ChatMode.MAPS u).model = "gemini-2.5-flash" ∧
    (buildRequest prompt ChatMode.MAPS u).systemInstruction = SYSTEM_INSTRUCTION_MAPS ∧
    (buildRequest prompt ChatMode.MAPS u).tools = some [ToolKind.googleMaps] ∧
    (∀ loc : Location, u = some loc →
      (buildRequest prompt ChatMode.MAPS u).toolConfig = some ⟨loc.lat, loc.lng⟩) ∧
    (u = none → (buildRequest prompt ChatMode.MAPS u).toolConfig = none) ∧
    (buildRequest prompt ChatMode.SEARCH u).model = "gemini-2.5-flash" ∧
    (buildRequest prompt ChatMode.SEARCH u).systemInstruction = SYSTEM_INSTRUCTION_SEARCH ∧
    (buildRequest prompt ChatMode.SEARCH u).tools = some [ToolKind.googleSearch] ∧
    (buildRequest prompt ChatMode.SEARCH u).toolConfig = none ∧
    (buildRequest prompt ChatMode.CHAT u).model = "gemini-3-pro-preview" ∧
    (buildRequest prompt ChatMode.CHAT u).systemInstruction = SYSTEM_INSTRUCTION_CHAT ∧
    (buildRequest prompt ChatMode.CHAT u).tools = none ∧
    (buildRequest prompt ChatMode.CHAT u).toolConfig = none := by
  refine ⟨rfl, rfl, rfl, ?_, ?_, rfl, rfl, rfl, rfl, rfl, rfl, rfl, rfl⟩
  · rintro loc rfl; rfl
  · rintro rfl; rfl

/-- C4 witness: with a concrete user location, MAPS mode attaches the
geographic retrieval bias at that latitude/longitude. -/
theorem claim_C4_witness :
    (buildRequest "q" ChatMode.MAPS (some ⟨1, 2⟩)).toolConfig = some ⟨1, 2⟩ :=
  (claim_C4 "q" (some ⟨1, 2⟩)).2.2.2.1 ⟨1, 2⟩ rfl

/-- C6: the send-message operation is a no-op — state unchanged and no
Gateway call issued — whenever the trimmed input is empty or a send is
already in flight; hence a second attempt while one is outstanding is
dropped, not queued, and at most one send is ever in flight. -/
theorem claim_C6 (s : AppState) (tUser tBot : Nat) (resp : GeminiResponse)
    (h : jsTrim s.inputValue.toList = [] ∨ s.isLoading = true) :
    handleSendMessage s tUser tBot resp = (s, false) := by
  unfold handleSendMessage
  rcases h with h | h
  · rw [if_pos (Or.inl h)]
  · rw [if_pos (Or.inr h)]

/-- C6 witness: with a send in flight, a second attempt with non-blank
input changes nothing and issues no Gateway call. -/
theorem claim_C6_witness :
    handleSendMessage { initialState 0 with isLoading := true, inputValue := "hello" } 1 2
        { text := "t", markers := none, sources := none }
      = ({ initialState 0 with isLoading := true, inputValue := "hello" }, false) :=
  claim_C6 _ 1 2 _ (Or.inr rfl)

/-- C7: a completed send with non-blank input while idle issues the
Gateway call, grows the conversation log by exactly the user message
followed by the model message built from the Gateway result, leaves the
in-flight flag clear, and updates marker set, map centre and zoom (to the
first marker and 14) exactly when the returned marker list is non-empty,
leaving all three unchanged otherwise. -/
theorem claim_C7 (s : AppState) (tUser tBot : Nat) (resp : GeminiResponse)
    (h1 : ¬ jsTrim s.inputValue.toList = []) (h2 : s.isLoading = false) :
    (handleSendMessage s tUser tBot resp).2 = true ∧
    (handleSendMessage s tUser tBot resp).1.messages
      = s.messages ++ [userMessage s tUser, botMessage tBot resp] ∧
    (userMessage s tUser).role = MessageRole.user ∧
    (botMessage tBot resp).role = MessageRole.model ∧
    (botMessage tBot resp).text = resp.text ∧
    (botMessage tBot resp).markers = resp.markers ∧
    (handleSendMessage s tUser tBot resp).1.isLoading = false ∧
    (∀ (m : MapMarker) (ms : List MapMarker), resp.markers = some (m :: ms) →
      (handleSendMessage s tUser tBot resp).1.markers = m :: ms ∧
      (handleSendMessage s tUser tBot resp).1.mapCenter = ⟨m.lat, m.lng⟩ ∧
      (handleSendMessage s tUser tBot resp).1.mapZoom = 14) ∧
    ((resp.markers = none ∨ resp.markers = some []) →
      (handleSendMessage s tUser tBot resp).1.markers = s.markers ∧
      (handleSendMessage s tUser tBot resp).1.mapCenter = s.mapCenter ∧
      (handleSendMessage s tUser tBot resp).1.mapZoom = s.mapZoom) := by
  have hguard : ¬ ((jsTrim s.inputValue.toList = []) ∨ s.isLoading = true) := by
    intro hc
    rcases hc with hc | hc
    · exact h1 hc
    · rw [h2] at hc; cases hc
  rcases hm : resp.markers with _ | ⟨_ | ⟨m, ms⟩⟩
  · have hred : handleSendMessage s tUser tBot resp =
        ({ s with inputValue := "",
                  messages := s.messages ++ [userMessage s tUser, botMessage tBot resp] },
          true) := by
      unfold handleSendMessage
      rw [if_neg hguard, hm]
    refine ⟨?_, ?_, rfl, rfl, rfl, ?_, ?_, ?_, ?_⟩
    · rw [hred]
    · rw [hred]
    · simp [botMessage, hm]
    · rw [hred]; exact h2
    · intro m2 ms2 hc; cases hc
    · intro _; rw [hred]; exact ⟨rfl, rfl, rfl⟩
  · have hred : handleSendMessage s tUser tBot resp =
        ({ s with inputValue := "",
                  messages := s.messages ++ [userMessage s tUser, botMessage tBot resp] },
          true) := by
      unfold handleSendMessage
      rw [if_neg hguard, hm]
    refine ⟨?_, ?_, rfl, rfl, rfl, ?_, ?_, ?_, ?_⟩
    · rw [hred]
    · rw [hred]
    · simp [botMessage, hm]
    · rw [hred]; exact h2
    · intro m2 ms2 hc
      injection hc with hc
      cases hc
    · intro _; rw [hred]; exact ⟨rfl, rfl, rfl⟩
  · have hred : handleSendMessage s tUser tBot resp =
        ({ s with inputValue := "",
                  messages := s.messages ++ [userMessage s tUser, botMessage tBot resp],
                  markers := m :: ms,
                  mapCenter := { lat := m.lat, lng := m.lng },
                  mapZoom := 14 }, true) := by
      unfold handleSendMessage
      rw [if_neg hguard, hm]
    refine ⟨?_, ?_, rfl, rfl, rfl, ?_, ?_, ?_, ?_⟩
    · rw [hred]
    · rw [hred]
    · simp [botMessage, hm]
    · rw [hred]; exact h2
    · intro m2 ms2 hc
      injection hc with hc
      injection hc with hc1 hc2
      subst hc1; subst hc2
      rw [hred]
      exact ⟨rfl, rfl, rfl⟩
    · intro hc
      rcases hc with hc | hc
      · cases hc
      · injection hc with hc; cases hc

/-- C7 witness: a concrete completed MAPS send with one returned marker
sets the zoom to 14. -/
theorem claim_C7_witness :
    (handleSendMessage { initialState 0 with inputValue := "parks" } 5 6
        { text := "ok", markers := some [⟨"m1", "Park", 3, 4, "d", none, none, none, none⟩],
          sources := some [] }).1.mapZoom = 14 :=
  ((claim_C7 _ 5 6 _ (by decide) rfl).2.2.2.2.2.2.2.1 _ [] rfl).2.2

theorem sourcesOfChunks_forall₂ (chunks : List GroundingChunk)
    (h : ∀ ch ∈ chunks, ch.web.isSome = true ∨ ch.maps.isSome = true) :
    List.Forall₂ chunkTitleOk chunks (sourcesOfChunks chunks) := by
  induction chunks with
  | nil => exact List.Forall₂.nil
  | cons ch rest ih =>
    have hch := h ch (by simp)
    have hrest : ∀ c ∈ rest, c.web.isSome = true ∨ c.maps.isSome = true :=
      fun c hc => h c (by simp [hc])
    have hone : ∃ s, chunkSources ch = [s] ∧ chunkTitleOk ch s := by
      rcases hw : ch.web with _ | w
      · rcases hm : ch.maps with _ | m
        · rw [hw, hm] at hch; simp at hch
        · refine ⟨⟨jsStringOr m.title "Map Location", m.uri⟩,
            by simp [chunkSources, hw, hm], ?_, ?_⟩
          · intro w2 hw2; rw [hw] at hw2; cases hw2
          · intro _ m2 hm2
            rw [hm] at hm2
            injection hm2 with hm2
            subst hm2
            constructor
            · intro ht; simp [jsStringOr, ht]
            · intro t ht hne; simp [jsStringOr, ht, hne]
      · refine ⟨⟨jsStringOr w.title "Web Source", w.uri⟩,
          by simp [chunkSources, hw], ?_, ?_⟩
        · intro w2 hw2
          rw [hw] at hw2
          injection hw2 with hw2
          subst hw2
          constructor
          · intro ht; simp [jsStringOr, ht]
          · intro t ht hne; simp [jsStringOr, ht, hne]
        · intro hnone; rw [hw] at hnone; cases hnone
    obtain ⟨sref, hs, hok⟩ := hone
    have hexp : sourcesOfChunks (ch :: rest) = sref :: sourcesOfChunks rest := by
      simp [sourcesOfChunks, hs]
    rw [hexp]
    exact List.Forall₂.cons hok (ih hrest)

/-- C5: with no grounding metadata the returned sources sequence is
empty; with metadata whose chunks are each web- or maps-tagged, the
Gateway emits one source per chunk in the provided order, titled by the
chunk or by the fixed fallback "Web Source" / "Map Location" when the
title is lacking. -/
theorem claim_C5 (jp : List Char → JsonParseResult) (now : Nat) (prompt : String)
    (mode : ChatMode) (u : Option Location) (resp : ProviderResponse) :
    (resp.groundingChunks = none →
      (sendMessageToGemini jp now prompt mode u (CallOutcome.success resp)).sources
        = some []) ∧
    (∀ chunks : List GroundingChunk, resp.groundingChunks = some chunks →
      (∀ ch ∈ chunks, ch.web.isSome = true ∨ ch.maps.isSome = true) →
      (sendMessageToGemini jp now prompt mode u (CallOutcome.success resp)).sources
        = some (sourcesOfChunks chunks) ∧
      List.Forall₂ chunkTitleOk chunks (sourcesOfChunks chunks)) := by
  constructor
  · intro h
    show some (parseSources resp.groundingChunks) = some []
    rw [h]; rfl
  · intro chunks hc hwm
    constructor
    · show some (parseSources resp.groundingChunks) = some (sourcesOfChunks chunks)
      rw [hc]; rfl
    · exact sourcesOfChunks_forall₂ chunks hwm

/-- C5 witness: a response with no grounding metadata yields an empty
sources sequence. -/
theorem claim_C5_witness :
    (sendMessageToGemini (fun _ => JsonParseResult.failure) 0 "q" ChatMode.SEARCH none
        (CallOutcome.success ⟨some "hi", none⟩)).sources = some [] :=
  (claim_C5 (fun _ => JsonParseResult.failure) 0 "q" ChatMode.SEARCH none
    ⟨some "hi", none⟩).1 rfl

/-- C1 (amended): a MAPS-mode call whose raw text carries a fenced json
block with a non-empty body parsing to a JSON array returns one MapMarker
per array element, with name, lat, lng and description copied verbatim
and an identifier synthesized from the timestamp and the array index
(injective in the index, hence unique within the response); the element
fields `type` and `distance` are discarded — every parsed marker carries
no role and no distance. -/
theorem claim_C1 (jp : List Char → JsonParseResult) (now : Nat) (prompt : String)
    (u : Option Location) (resp : ProviderResponse) (b body a : List Char)
    (elems : List JsonElem)
    (hmatch : matchJsonBlock (jsStringOr resp.text noTextFallback).toList = some (b, body, a))
    (hbody : body ≠ [])
    (hjp : jp body = JsonParseResult.array elems) :
    (sendMessageToGemini jp now prompt ChatMode.MAPS u (CallOutcome.success resp)).markers
      = some (buildMarkers now 0 elems) ∧
    (buildMarkers now 0 elems).length = elems.length ∧
    (∀ i : Nat, (buildMarkers now 0 elems)[i]? = (elems[i]?).map
      (fun m => (⟨mkMarkerId now i, m.name, m.lat, m.lng, m.description,
                  none, none, none, none⟩ : MapMarker))) ∧
    Function.Injective (mkMarkerId now) ∧
    (jsStringOr resp.text noTextFallback).toList = b ++ openFence ++ body ++ closeFence ++ a := by
  refine ⟨?_, buildMarkers_length now elems 0, ?_, ?_, matchJsonBlock_sound _ _ _ _ hmatch⟩
  · show some (extractMarkers jp now ChatMode.MAPS (jsStringOr resp.text noTextFallback)) = _
    have hmatch2 : matchJsonBlock (jsStringOr resp.text noTextFallback).data = some (b, body, a) :=
      hmatch
    simp [extractMarkers, hmatch2, hbody, hjp]
  · intro i
    rw [buildMarkers_getElem? now elems 0 i]
    simp
  · intro i j hij
    exact mkMarkerId_inj now i j hij

/-- C1 witness: a concrete MAPS-mode response whose block parses to one
element yields exactly the built marker list. -/
theorem claim_C1_witness :
    (sendMessageToGemini
        (fun cs => if cs = "[ARR]".toList then JsonParseResult.array
          [⟨"A", 1, 2, "d", some "origin", some "2 km"⟩] else JsonParseResult.failure)
        7 "p" ChatMode.MAPS none
        (CallOutcome.success ⟨some "Two\n```json\n[ARR]\n```", none⟩)).markers
      = some (buildMarkers 7 0 [⟨"A", 1, 2, "d", some "origin", some "2 km"⟩]) :=
  (claim_C1
    (fun cs => if cs = "[ARR]".toList then JsonParseResult.array
      [⟨"A", 1, 2, "d", some "origin", some "2 km"⟩] else JsonParseResult.failure)
    7 "p" none ⟨some "Two\n```json\n[ARR]\n```", none⟩
    "Two\n".toList "[ARR]".toList [] [⟨"A", 1, 2, "d", some "origin", some "2 km"⟩]
    (by decide) (by decide) (by decide)).1

/-- C1 counterexample: the claim as stated copies the element role from
its `type` field; at a concrete input whose single element carries
`type: "origin"` and a distance, the returned marker stores neither — its
`type` and `distance` fields are absent. -/
theorem claim_C1_counterexample :
    (fun cs => if cs = "[ARR]".toList then JsonParseResult.array
        [⟨"A", 1, 2, "d", some "origin", some "2 km"⟩] else JsonParseResult.failure)
        ("[ARR]".toList)
      = JsonParseResult.array [⟨"A", 1, 2, "d", some "origin", some "2 km"⟩] ∧
    (sendMessageToGemini
        (fun cs => if cs = "[ARR]".toList then JsonParseResult.array
          [⟨"A", 1, 2, "d", some "origin", some "2 km"⟩] else JsonParseResult.failure)
        7 "p" ChatMode.MAPS none
        (CallOutcome.success ⟨some "Two\n```json\n[ARR]\n```", none⟩)).markers
      = some [⟨"marker-7-0", "A", 1, 2, "d", none, none, none, none⟩] ∧
    (some "origin" : Option String) ≠ none := by
  refine ⟨by decide, by decide, by decide⟩

/-- C2 (amended): a MAPS-mode call whose raw text carries a fenced json
block whose body fails to parse returns an empty marker list and, as
display text, the raw text with the matched fenced block removed and
surrounding whitespace trimmed; no fault reaches the caller. -/
theorem claim_C2 (jp : List Char → JsonParseResult) (now : Nat) (prompt : String)
    (u : Option Location) (resp : ProviderResponse) (b body a : List Char)
    (hmatch : matchJsonBlock (jsStringOr resp.text noTextFallback).toList = some (b, body, a))
    (hjp : jp body = JsonParseResult.failure) :
    (sendMessageToGemini jp now prompt ChatMode.MAPS u (CallOutcome.success resp)).markers
      = some [] ∧
    (sendMessageToGemini jp now prompt ChatMode.MAPS u (CallOutcome.success resp)).text
      = String.mk (jsTrim (b ++ a)) ∧
    (jsStringOr resp.text noTextFallback).toList = b ++ openFence ++ body ++ closeFence ++ a := by
  refine ⟨?_, ?_, matchJsonBlock_sound _ _ _ _ hmatch⟩
  · show some (extractMarkers jp now ChatMode.MAPS (jsStringOr resp.text noTextFallback)) = some []
    have hmatch2 : matchJsonBlock (jsStringOr resp.text noTextFallback).data = some (b, body, a) :=
      hmatch
    by_cases hb : body = []
    · simp [extractMarkers, hmatch2, hb]
    · simp [extractMarkers, hmatch2, hb, hjp]
  · show cleanJson (jsStringOr resp.text noTextFallback) = String.mk (jsTrim (b ++ a))
    unfold cleanJson
    rw [hmatch]

/-- C2 witness: a concrete malformed block yields empty markers and the
block-stripped trimmed text. -/
theorem claim_C2_witness :
    (sendMessageToGemini (fun _ => JsonParseResult.failure) 0 "p" ChatMode.MAPS none
        (CallOutcome.success ⟨some "X\n```json\n[2,]\n```\nY", none⟩)).text
      = String.mk (jsTrim ("X\n".toList ++ "\nY".toList)) :=
  (claim_C2 (fun _ => JsonParseResult.failure) 0 "p" none
    ⟨some "X\n```json\n[2,]\n```\nY", none⟩
    "X\n".toList "[2,]".toList "\nY".toList (by decide) rfl).2.1

/-- C2 counterexample: the claim as stated promises the unmodified
whitespace-trimmed raw text; at a concrete input with a malformed block
the returned display text has the block deleted, which differs from the
trimmed raw text. -/
theorem claim_C2_counterexample :
    (sendMessageToGemini (fun _ => JsonParseResult.failure) 0 "p" ChatMode.MAPS none
        (CallOutcome.success ⟨some "Here\n```json\n[1,]\n```", none⟩)).text = "Here" ∧
    String.mk (jsTrim ("Here\n```json\n[1,]\n```" : String).toList) ≠ "Here" ∧
    (sendMessageToGemini (fun _ => JsonParseResult.failure) 0 "p" ChatMode.MAPS none
        (CallOutcome.success ⟨some "Here\n```json\n[1,]\n```", none⟩)).markers
      = some [] := by
  refine ⟨by decide, by decide, by decide⟩

theorem routePositions_isSome_iff (markers : List MapMarker) :
    (routePositions markers).isSome = true ↔
      ((∃ m ∈ markers, m.type = some "origin") ∧
       (∃ m ∈ markers, m.type = some "destination")) := by
  unfold routePositions
  cases h1 : markers.find? (fun m => m.type = some "origin") with
  | none =>
    have hno : ∀ m ∈ markers, ¬ m.type = some "origin" := by
      intro m hm
      have := List.find?_eq_none.mp h1 m hm
      simpa using this
    cases h2 : markers.find? (fun m => m.type = some "destination") with
    | none =>
      simp only [Option.isSome_none, Bool.false_eq_true, false_iff]
      rintro ⟨⟨m, hm, ht⟩, _⟩
      exact hno m hm ht
    | some d =>
      simp only [Option.isSome_none, Bool.false_eq_true, false_iff]
      rintro ⟨⟨m, hm, ht⟩, _⟩
      exact hno m hm ht
  | some o =>
    cases h2 : markers.find? (fun m => m.type = some "destination") with
    | none =>
      have hno : ∀ m ∈ markers, ¬ m.type = some "destination" := by
        intro m hm
        have := List.find?_eq_none.mp h2 m hm
        simpa using this
      simp only [Option.isSome_none, Bool.false_eq_true, false_iff]
      rintro ⟨_, m, hm, ht⟩
      exact hno m hm ht
    | some d =>
      simp only [Option.isSome_some, true_iff]
      constructor
      · exact ⟨o, List.mem_of_find?_eq_some h1, by simpa using List.find?_some h1⟩
      · exact ⟨d, List.mem_of_find?_eq_some h2, by simpa using List.find?_some h2⟩

theorem routePositions_some_spec (markers : List MapMarker) (ps : List (Rat × Rat))
    (h : routePositions markers = some ps) :
    ∃ o ∈ markers, ∃ d ∈ markers, o.type = some "origin" ∧ d.type = some "destination" ∧
      ps = [(o.lat, o.lng), (d.lat, d.lng)] := by
  unfold routePositions at h
  cases h1 : markers.find? (fun m => m.type = some "origin") with
  | none => rw [h1] at h; cases h2 : markers.find? (fun m => m.type = some "destination") <;>
      rw [h2] at h <;> cases h
  | some o =>
    rw [h1] at h
    cases h2 : markers.find? (fun m => m.type = some "destination") with
    | none => rw [h2] at h; cases h
    | some d =>
      rw [h2] at h
      injection h with h
      exact ⟨o, List.mem_of_find?_eq_some h1, d, List.mem_of_find?_eq_some h2,
        by simpa using List.find?_some h1, by simpa using List.find?_some h2, h.symm⟩

/-- C8: the Map View draws a route line exactly when the marker list
contains both an origin-role and a destination-role marker; the line is a
straight dashed segment between an origin-role and a destination-role
member, 4-weight, accent-coloured; and whether the line is drawn is
invariant under any membership-preserving reordering of the list. -/
theorem claim_C8 (center : Location) (markers : List MapMarker) (dark : Bool)
    (layer : MapLayer) :
    ((renderMap center markers dark layer).routeLine.isSome = true ↔
      ((∃ m ∈ markers, m.type = some "origin") ∧
       (∃ m ∈ markers, m.type = some "destination"))) ∧
    (∀ line : RouteLine, (renderMap center markers dark layer).routeLine = some line →
      ∃ o ∈ markers, ∃ d ∈ markers, o.type = some "origin" ∧ d.type = some "destination" ∧
        line.positions = [(o.lat, o.lng), (d.lat, d.lng)] ∧
        line.dashArray = "10, 10" ∧ line.weight = 4 ∧
        line.color = accentColor dark layer ∧ line.opacity = 0.8) ∧
    (∀ markers2 : List MapMarker, (∀ m : MapMarker, m ∈ markers ↔ m ∈ markers2) →
      (renderMap center markers dark layer).routeLine.isSome
        = (renderMap center markers2 dark layer).routeLine.isSome) := by
  have hsome : ∀ ms : List MapMarker,
      (renderMap center ms dark layer).routeLine.isSome = (routePositions ms).isSome := by
    intro ms
    show ((routePositions ms).map _).isSome = _
    cases routePositions ms <;> rfl
  refine ⟨?_, ?_, ?_⟩
  · rw [hsome markers, routePositions_isSome_iff]
  · intro line hline
    have hmap : (routePositions markers).map
        (fun ps => ({ positions := ps, color := accentColor dark layer,
                      dashArray := "10, 10", weight := 4, opacity := 0.8 } : RouteLine))
        = some line := hline
    rw [Option.map_eq_some'] at hmap
    obtain ⟨ps, hps, hline2⟩ := hmap
    obtain ⟨o, ho, d, hd, hto, htd, hps2⟩ := routePositions_some_spec markers ps hps
    subst hline2
    exact ⟨o, ho, d, hd, hto, htd, by rw [hps2], rfl, rfl, rfl, rfl⟩
  · intro markers2 hmem
    rw [hsome markers, hsome markers2]
    have hiff : (routePositions markers).isSome = true ↔
        (routePositions markers2).isSome = true := by
      rw [routePositions_isSome_iff, routePositions_isSome_iff]
      constructor
      · rintro ⟨⟨m, hm, h⟩, ⟨m2, hm2, h2⟩⟩
        exact ⟨⟨m, (hmem m).mp hm, h⟩, ⟨m2, (hmem m2).mp hm2, h2⟩⟩
      · rintro ⟨⟨m, hm, h⟩, ⟨m2, hm2, h2⟩⟩
        exact ⟨⟨m, (hmem m).mpr hm, h⟩, ⟨m2, (hmem m2).mpr hm2, h2⟩⟩
    cases hb1 : (routePositions markers).isSome <;>
      cases hb2 : (routePositions markers2).isSome
    · rfl
    · rw [hb1, hb2] at hiff; exact absurd (hiff.mpr rfl) (by simp)
    · rw [hb1, hb2] at hiff; exact absurd (hiff.mp rfl) (by simp)
    · rfl

/-- C8 witness: a concrete two-marker origin/destination list draws the
route line. -/
theorem claim_C8_witness :
    (renderMap ⟨0, 0⟩ [⟨"a", "A", 1, 2, "o", some "origin", none, none, none⟩,
        ⟨"b", "B", 3, 4, "t", some "destination", none, none, none⟩]
      false MapLayer.street).routeLine.isSome = true :=
  (claim_C8 ⟨0, 0⟩ [⟨"a", "A", 1, 2, "o", some "origin", none, none, none⟩,
      ⟨"b", "B", 3, 4, "t", some "destination", none, none, none⟩]
    false MapLayer.street).1.mpr (by decide)

/-- C9 (amended): the Map View always renders exactly one
current-location glyph — a 16px filled circle, accent-coloured
(`#60a5fa` in dark mode off-satellite, else `#3b82f6`), popup
"You are here" — independent of the markers list; it is positioned at
the map centre prop, which the Shell feeds from `mapCenter`, so after a
recentering on result markers the glyph follows the centre rather than
the caller's location. -/
theorem claim_C9 (center : Location) (markers : List MapMarker) (dark : Bool)
    (layer : MapLayer) :
    (renderMap center markers dark layer).userGlyph =
      { position := center, colorHex := accentColor dark layer, sizePx := 16,
        popupText := "You are here" } ∧
    (∀ markers2 : List MapMarker,
      (renderMap center markers dark layer).userGlyph
        = (renderMap center markers2 dark layer).userGlyph) ∧
    (dark = true → layer ≠ MapLayer.satellite → accentColor dark layer = "#60a5fa") ∧
    (dark = false ∨ layer = MapLayer.satellite → accentColor dark layer = "#3b82f6") ∧
    (∀ st : AppState, (appRender st).userGlyph.position = st.mapCenter) := by
  refine ⟨rfl, fun _ => rfl, ?_, ?_, fun _ => rfl⟩
  · rintro rfl hl
    simp [accentColor, hl]
  · rintro (rfl | rfl)
    · simp [accentColor]
    · simp [accentColor]

/-- C9 witness: in dark mode on the street layer the glyph colour is the
dark accent. -/
theorem claim_C9_witness :
    accentColor true MapLayer.street = "#60a5fa" :=
  (claim_C9 ⟨0, 0⟩ [] true MapLayer.street).2.2.1 rfl (by decide)

/-- C9 counterexample: the claim as stated places the glyph at the
caller's current location independent of recentering; after a concrete
send recentres the map on a result marker, the glyph sits at that marker
coordinate while the stored user location is still the default. -/
theorem claim_C9_counterexample :
    (appRender (handleSendMessage { initialState 0 with inputValue := "parks" } 5 6
        { text := "ok", markers := some [⟨"m1", "Park", 3, 4, "d", none, none, none, none⟩],
          sources := some [] }).1).userGlyph.position
      = { lat := 3, lng := 4 } ∧
    (handleSendMessage { initialState 0 with inputValue := "parks" } 5 6
        { text := "ok", markers := some [⟨"m1", "Park", 3, 4, "d", none, none, none, none⟩],
          sources := some [] }).1.userLocation = DEFAULT_LOCATION ∧
    ({ lat := 3, lng := 4 } : Location) ≠ DEFAULT_LOCATION := by
  refine ⟨rfl, rfl, ?_⟩
  intro h
  have h2 : (3 : Rat) = 37.7749 := congrArg Location.lat h
  norm_num at h2

/-- C10: in every mode the display text equals the raw text — or the
no-text fallback sentence when the provider text is absent or empty —
with the first fenced json block deleted and the ends trimmed; the
deletion happens in SEARCH and CHAT exactly as in MAPS even though
markers are parsed only in MAPS (elsewhere the marker list is empty);
the deleted block is the leftmost one, so any later block survives in
the after-part, which is preserved verbatim up to the end trim. -/
theorem claim_C10 (jp : List Char → JsonParseResult) (now : Nat) (prompt : String)
    (u : Option Location) (resp : ProviderResponse) (mode mode2 : ChatMode) :
    (sendMessageToGemini jp now prompt mode u (CallOutcome.success resp)).text
      = (sendMessageToGemini jp now prompt mode2 u (CallOutcome.success resp)).text ∧
    (sendMessageToGemini jp now prompt mode u (CallOutcome.success resp)).text
      = cleanJson (jsStringOr resp.text noTextFallback) ∧
    (∀ b body a : List Char,
      matchJsonBlock (jsStringOr resp.text noTextFallback).toList = some (b, body, a) →
      (jsStringOr resp.text noTextFallback).toList = b ++ openFence ++ body ++ closeFence ++ a ∧
      (sendMessageToGemini jp now prompt mode u (CallOutcome.success resp)).text
        = String.mk (jsTrim (b ++ a)) ∧
      (∀ b2 r2 : List Char,
        (jsStringOr resp.text noTextFallback).toList = b2 ++ openFence ++ r2 →
        b.length ≤ b2.length)) ∧
    (matchJsonBlock (jsStringOr resp.text noTextFallback).toList = none →
      (sendMessageToGemini jp now prompt mode u (CallOutcome.success resp)).text
        = String.mk (jsTrim (jsStringOr resp.text noTextFallback).toList)) ∧
    (mode ≠ ChatMode.MAPS →
      (sendMessageToGemini jp now prompt mode u (CallOutcome.success resp)).markers
        = some []) ∧
    ((resp.text = none ∨ resp.text = some "") →
      (sendMessageToGemini jp now prompt mode u (CallOutcome.success resp)).text
        = cleanJson noTextFallback) := by
  refine ⟨rfl, rfl, ?_, ?_, ?_, ?_⟩
  · intro b body a h
    refine ⟨matchJsonBlock_sound _ _ _ _ h, ?_, matchJsonBlock_leftmost _ _ _ _ h⟩
    show cleanJson (jsStringOr resp.text noTextFallback) = String.mk (jsTrim (b ++ a))
    unfold cleanJson
    rw [h]
  · intro h
    show cleanJson (jsStringOr resp.text noTextFallback)
      = String.mk (jsTrim (jsStringOr resp.text noTextFallback).toList)
    unfold cleanJson
    rw [h]
  · intro hmode
    show some (extractMarkers jp now mode (jsStringOr resp.text noTextFallback)) = some []
    simp [extractMarkers, hmode]
  · intro h
    show cleanJson (jsStringOr resp.text noTextFallback) = cleanJson noTextFallback
    rcases h with h | h <;> rw [h] <;> rfl

/-- C10 witness: a CHAT-mode response with a fenced block has the block
deleted from the display text and an empty marker list. -/
theorem claim_C10_witness :
    (sendMessageToGemini (fun _ => JsonParseResult.failure) 0 "p" ChatMode.CHAT none
        (CallOutcome.success ⟨some "Go\n```json\n[3]\n```", none⟩)).text
      = String.mk (jsTrim ("Go\n".toList ++ ([] : List Char))) ∧
    (sendMessageToGemini (fun _ => JsonParseResult.failure) 0 "p" ChatMode.CHAT none
        (CallOutcome.success ⟨some "Go\n```json\n[3]\n```", none⟩)).markers = some [] :=
  ⟨((claim_C10 (fun _ => JsonParseResult.failure) 0 "p" none
      ⟨some "Go\n```json\n[3]\n```", none⟩ ChatMode.CHAT ChatMode.MAPS).2.2.1
      "Go\n".toList "[3]".toList [] (by decide)).2.1,
   (claim_C10 (fun _ => JsonParseResult.failure) 0 "p" none
      ⟨some "Go\n```json\n[3]\n```", none⟩ ChatMode.CHAT ChatMode.MAPS).2.2.2.2.1
      (by decide)⟩

end GeoGuide
